import Mathlib

/-!
Shallow embedding of the MIC24CSM01 Arduino EEPROM driver
(`src/MIC24CSM01.h` together with the library implementation file).

The I2C transport (the Arduino `Wire` object) is modelled by explicit
parameters standing for the values the bus hands back (the
`endTransmission` completion status, the bytes delivered by `read`, the
count returned by `requestFrom`) and by an explicit trace of bus events
emitted by each operation.  Machine integers are modelled as `Nat`, with
`% 2 ^ w` written out at exactly the points where a C store or a C
arithmetic operation can truncate or wrap.
-/

namespace MIC24CSM01

/-- `BASE_MEMREG_ADDR` from `MIC24CSM01.h`: default device address for the
memory register. -/
def BASE_MEMREG_ADDR : Nat := 0b1010000

/-- `BASE_CFGREG_ADDR` from `MIC24CSM01.h`: default device address for the
configuration register. -/
def BASE_CFGREG_ADDR : Nat := 0b1011000

/-- `CFGREG_WRD_ADDRH` from `MIC24CSM01.h`. -/
def CFGREG_WRD_ADDRH : Nat := 0b10001000

/-- `CFGREG_WRD_ADDRL` from `MIC24CSM01.h`. -/
def CFGREG_WRD_ADDRL : Nat := 0b00000000

/-- `SECREG_WRD_ADDRH` from `MIC24CSM01.h`. -/
def SECREG_WRD_ADDRH : Nat := 0b00001000

/-- `SECREG_WRD_ADDRL` from `MIC24CSM01.h`. -/
def SECREG_WRD_ADDRL : Nat := 0b00000000

/-- `SERIAL_NUMBER_BYTE_SIZE` from `MIC24CSM01.h`. -/
def SERIAL_NUMBER_BYTE_SIZE : Nat := 16

/-- `ECS_MASK` from `MIC24CSM01.h`: `0b1 << 15`. -/
def ECS_MASK : Nat := 1 <<< 15

/-- `EWPM_MASK` from `MIC24CSM01.h`: `0b1 << 9`. -/
def EWPM_MASK : Nat := 1 <<< 9

/-- `LOCK_MASK` from `MIC24CSM01.h`: `0b1 << 8`. -/
def LOCK_MASK : Nat := 1 <<< 8

/-- `REGISTER_LOCKED` from `MIC24CSM01.h`. -/
def REGISTER_LOCKED : Nat := 0x99

/-- `REGISTER_UNLOCKED` from `MIC24CSM01.h`; also the default value of the
`confirmLock` parameter of `updateConfigRegister`. -/
def REGISTER_UNLOCKED : Nat := 0x66

/-- `MAX_MEMORY_ADDRESS_VALUE` from `MIC24CSM01.h`. -/
def MAX_MEMORY_ADDRESS_VALUE : Nat := 0x1FFFF

/-- `MAX_MEMORY_PAGE_SIZE` from `MIC24CSM01.h`. -/
def MAX_MEMORY_PAGE_SIZE : Nat := 256

/-- The `MEMORYRESULT` enumeration from `MIC24CSM01.h`. -/
inductive MEMORYRESULT where
  | OK
  | ADDRESS_EXCEEDS_LIMIT
  | BUFFER_TOO_LARGE
  | NOT_ON_SINGLE_PAGE
  | ADDRESS_ERROR
  | DATA_ERROR
  | TIMEOUT
  | GENERIC_ERROR
deriving DecidableEq, Repr

/-- The `ConfigurationRegister` struct from `MIC24CSM01.h`.  The
`zoneProtection` field is a `uint8_t` in C; it is modelled as `Nat`, with
each C store into it truncating with `% 256`. -/
structure ConfigurationRegister where
  isErrorCorrectionOccured : Bool
  isSoftwareWriteProtect : Bool
  isConfigLocked : Bool
  zoneProtection : Nat
deriving DecidableEq, Repr

/-- The `WriteAddressPacket` struct from `MIC24CSM01.h`. -/
structure WriteAddressPacket where
  deviceMemoryAddress : Nat
  memoryMSB : Nat
  memoryLSB : Nat
deriving DecidableEq, Repr

/-- One primitive call into the `Wire` I2C transport, as recorded in the
trace each modelled operation emits.  `Wire.read` calls are not traced:
their results are supplied by the oracle parameters of each operation. -/
inductive BusEvent where
  | beginTransmission (devAddress : Nat)
  | writeByte (b : Nat)
  | endTransmission (sendStop : Bool)
  | requestFrom (devAddress quantity : Nat)
deriving DecidableEq, Repr

/-- The `Mem24CSM01` class state: its three device-address bytes and the
in-memory configuration snapshot. -/
structure Mem24CSM01 where
  m_dev_address_memory_access : Nat
  m_dev_address_configuration_reg : Nat
  m_dev_address_security_register : Nat
  m_configuration : ConfigurationRegister
deriving DecidableEq, Repr

/-- C integral promotion of a `bool`, as in `(A2 << 3)` on a `bool`. -/
def boolBit (b : Bool) : Nat := if b then 1 else 0

/-- The two-pin constructor `Mem24CSM01::Mem24CSM01(bool A1, bool A2)`:
`BASE_MEMREG_ADDR | (A2 << 3) | (A1 << 2)` for the memory address,
`BASE_CFGREG_ADDR | (A2 << 3) | (A1 << 2)` for the configuration address,
and the security-register address is a copy of the configuration address.
The C++ constructor leaves `m_configuration` uninitialised; the model uses
the zero-valued snapshot (no claim depends on the initial snapshot). -/
def Mem24CSM01.ofPins (A1 A2 : Bool) : Mem24CSM01 :=
  { m_dev_address_memory_access :=
      BASE_MEMREG_ADDR ||| (boolBit A2 <<< 3) ||| (boolBit A1 <<< 2)
    m_dev_address_configuration_reg :=
      BASE_CFGREG_ADDR ||| (boolBit A2 <<< 3) ||| (boolBit A1 <<< 2)
    m_dev_address_security_register :=
      BASE_CFGREG_ADDR ||| (boolBit A2 <<< 3) ||| (boolBit A1 <<< 2)
    m_configuration :=
      { isErrorCorrectionOccured := false
        isSoftwareWriteProtect := false
        isConfigLocked := false
        zoneProtection := 0 } }

/-- `Mem24CSM01::getConfiguration()`.  `busHigh` and `busLow` are the two
values handed back by the two `Wire.read()` calls; each is stored into a
`uint8_t` local (hence `% 256`), then `result = (high << 8) | low` is
stored into a `uint16_t` (hence `% 65536`), the snapshot is overwritten,
and `result` is returned.  The C `bool` conversion of `result & MASK` is
the test against zero. -/
def Mem24CSM01.getConfiguration (st : Mem24CSM01) (busHigh busLow : Nat) :
    Nat × Mem24CSM01 × List BusEvent :=
  let high := busHigh % 256
  let low := busLow % 256
  let result := ((high <<< 8) ||| low) % 65536
  (result,
   { st with m_configuration :=
      { zoneProtection := low
        isConfigLocked := (result &&& LOCK_MASK) != 0
        isSoftwareWriteProtect := (result &&& EWPM_MASK) != 0
        isErrorCorrectionOccured := (result &&& ECS_MASK) != 0 } },
   [BusEvent.beginTransmission st.m_dev_address_configuration_reg,
    BusEvent.writeByte CFGREG_WRD_ADDRH,
    BusEvent.writeByte CFGREG_WRD_ADDRL,
    BusEvent.endTransmission false,
    BusEvent.requestFrom st.m_dev_address_configuration_reg 2])

/-- `Mem24CSM01::getSerialNumber(uint8_t *data, uint8_t arraySize)`.
`busBytes i` is the value handed back by the `i`-th `Wire.read()` call;
each is stored into a `uint8_t` array slot (hence `% 256`).  The returned
list is the contents written into `data`. -/
def Mem24CSM01.getSerialNumber (st : Mem24CSM01) (arraySize : Nat)
    (busBytes : Nat → Nat) : Bool × List Nat × List BusEvent :=
  if arraySize ≠ SERIAL_NUMBER_BYTE_SIZE then (false, [], [])
  else
    (true,
     (List.range arraySize).map (fun i => busBytes i % 256),
     [BusEvent.beginTransmission st.m_dev_address_security_register,
      BusEvent.writeByte SECREG_WRD_ADDRH,
      BusEvent.writeByte SECREG_WRD_ADDRL,
      BusEvent.endTransmission false,
      BusEvent.requestFrom st.m_dev_address_security_register 16])

/-- `Mem24CSM01::updateConfigRegister(uint8_t confirmLock)`.  `endStatus`
is the value returned by `Wire.endTransmission()`; the function returns
`false` exactly when it is non-zero.  The second component is the trace of
bus calls the function performs. -/
def Mem24CSM01.updateConfigRegister (st : Mem24CSM01) (confirmLock : Nat)
    (endStatus : Int) : Bool × List BusEvent :=
  let cfgHighByte :=
    0 ||| (boolBit st.m_configuration.isSoftwareWriteProtect <<< 1) |||
      boolBit st.m_configuration.isConfigLocked
  let cfgLowByte := st.m_configuration.zoneProtection
  (if endStatus ≠ 0 then false else true,
   [BusEvent.beginTransmission st.m_dev_address_configuration_reg,
    BusEvent.writeByte CFGREG_WRD_ADDRH,
    BusEvent.writeByte CFGREG_WRD_ADDRL,
    BusEvent.writeByte cfgHighByte,
    BusEvent.writeByte cfgLowByte,
    BusEvent.writeByte confirmLock,
    BusEvent.endTransmission true])

/-- `Mem24CSM01::enableSoftwareWriteProtect()`: set the flag in the
snapshot, then delegate to `updateConfigRegister` with the default
(unlocked) confirm byte. -/
def Mem24CSM01.enableSoftwareWriteProtect (st : Mem24CSM01) (endStatus : Int) :
    Bool × Mem24CSM01 × List BusEvent :=
  let st2 :=
    { st with m_configuration :=
        { st.m_configuration with isSoftwareWriteProtect := true } }
  let u := st2.updateConfigRegister REGISTER_UNLOCKED endStatus
  (u.1, st2, u.2)

/-- `Mem24CSM01::disableSoftwareWriteProtect()`: clear the flag in the
snapshot, then delegate to `updateConfigRegister`. -/
def Mem24CSM01.disableSoftwareWriteProtect (st : Mem24CSM01) (endStatus : Int) :
    Bool × Mem24CSM01 × List BusEvent :=
  let st2 :=
    { st with m_configuration :=
        { st.m_configuration with isSoftwareWriteProtect := false } }
  let u := st2.updateConfigRegister REGISTER_UNLOCKED endStatus
  (u.1, st2, u.2)

/-- `Mem24CSM01::setWriteProtectionZone(uint8_t zone)`.  The guard
`zone >= 0 && zone <= 7` on a `uint8_t` is `zone <= 7`.  The Arduino
`bitSet` macro ORs `1UL << zone` into the byte (the store into the
`uint8_t` member truncates with `% 256`; within the guard `zone ≤ 7`, the
32-bit value `1UL << zone` is exactly `1 <<< zone`). -/
def Mem24CSM01.setWriteProtectionZone (st : Mem24CSM01) (zone : Nat)
    (endStatus : Int) : Bool × Mem24CSM01 × List BusEvent :=
  if zone ≤ 7 then
    let temp_zoneProtection :=
      (st.m_configuration.zoneProtection ||| (1 <<< zone)) % 256
    let st2 :=
      { st with m_configuration :=
          { st.m_configuration with zoneProtection := temp_zoneProtection } }
    let u := st2.updateConfigRegister REGISTER_UNLOCKED endStatus
    if u.1 then (true, st2, u.2) else (false, st2, u.2)
  else (false, st, [])

/-- `Mem24CSM01::removeWriteProtectionZone(uint8_t zone)`.  The Arduino
`bitClear` macro ANDs `~(1UL << zone)` into the byte; `~` on the 32-bit
`unsigned long` is XOR with `2 ^ 32 - 1`, and the store into the `uint8_t`
member truncates with `% 256`. -/
def Mem24CSM01.removeWriteProtectionZone (st : Mem24CSM01) (zone : Nat)
    (endStatus : Int) : Bool × Mem24CSM01 × List BusEvent :=
  if zone ≤ 7 then
    let temp_zoneProtection :=
      (st.m_configuration.zoneProtection &&& ((2 ^ 32 - 1) ^^^ (1 <<< zone))) % 256
    let st2 :=
      { st with m_configuration :=
          { st.m_configuration with zoneProtection := temp_zoneProtection } }
    let u := st2.updateConfigRegister REGISTER_UNLOCKED endStatus
    if u.1 then (true, st2, u.2) else (false, st2, u.2)
  else (false, st, [])

/-- `Mem24CSM01::writeProtection(uint8_t zones)`: overwrite the whole
zone-protection byte (`zones` is a `uint8_t`, modelled with `% 256`), then
delegate to `updateConfigRegister`. -/
def Mem24CSM01.writeProtection (st : Mem24CSM01) (zones : Nat)
    (endStatus : Int) : Bool × Mem24CSM01 × List BusEvent :=
  let st2 :=
    { st with m_configuration :=
        { st.m_configuration with zoneProtection := zones % 256 } }
  let u := st2.updateConfigRegister REGISTER_UNLOCKED endStatus
  (u.1, st2, u.2)

/-- `Mem24CSM01::configureAddressPacket(uint32_t address)`. -/
def Mem24CSM01.configureAddressPacket (st : Mem24CSM01) (address : Nat) :
    WriteAddressPacket :=
  let highAddrBit := (address >>> 17) &&& 1
  { deviceMemoryAddress := st.m_dev_address_memory_access ||| (highAddrBit <<< 1)
    memoryMSB := (address >>> 8) &&& 0xFF
    memoryLSB := address &&& 0xFF }

/-- `Mem24CSM01::processTransmissionResult(int transmissionResult)`. -/
def processTransmissionResult (transmissionResult : Int) : MEMORYRESULT :=
  if transmissionResult = 0 then MEMORYRESULT.OK
  else if transmissionResult = 2 then MEMORYRESULT.ADDRESS_ERROR
  else if transmissionResult = 3 then MEMORYRESULT.DATA_ERROR
  else if transmissionResult = 5 then MEMORYRESULT.TIMEOUT
  else MEMORYRESULT.GENERIC_ERROR

/-- `Mem24CSM01::write(uint32_t address, uint8_t *dataArray, size_t
arraySize)`.  `dataArray i` models the byte `dataArray[i]` (a `uint8_t`,
hence `% 256`); `address` and `arraySize` range over the values of the C
`uint32_t` and `size_t` parameters.  The page check computes
`address + arraySize - 1` in `uint32_t` arithmetic, so the subtraction is
`(address + arraySize + 2 ^ 32 - 1) % 2 ^ 32`.  `endStatus` is the value
returned by `Wire.endTransmission()`. -/
def Mem24CSM01.write (st : Mem24CSM01) (address : Nat) (dataArray : Nat → Nat)
    (arraySize : Nat) (endStatus : Int) : MEMORYRESULT × List BusEvent :=
  if address > MAX_MEMORY_ADDRESS_VALUE then
    (MEMORYRESULT.ADDRESS_EXCEEDS_LIMIT, [])
  else if arraySize > MAX_MEMORY_PAGE_SIZE then
    (MEMORYRESULT.BUFFER_TOO_LARGE, [])
  else if (address + arraySize + (2 ^ 32 - 1)) % 2 ^ 32 > 0xFF then
    (MEMORYRESULT.NOT_ON_SINGLE_PAGE, [])
  else
    let pkt := st.configureAddressPacket address
    (processTransmissionResult endStatus,
     [BusEvent.beginTransmission pkt.deviceMemoryAddress,
      BusEvent.writeByte pkt.memoryMSB,
      BusEvent.writeByte pkt.memoryLSB] ++
     (List.range arraySize).map (fun i => BusEvent.writeByte (dataArray i % 256)) ++
     [BusEvent.endTransmission true])

/-- `Mem24CSM01::read(uint8_t *data)` — current-address read.
`requestReturn` is the count returned by `Wire.requestFrom`, `busByte` the
value handed back by `Wire.read()`; the middle component is the byte
stored into `data[0]` (when any). -/
def Mem24CSM01.readCurrent (st : Mem24CSM01) (requestReturn : Nat)
    (busByte : Nat) : MEMORYRESULT × Option Nat × List BusEvent :=
  let events :=
    [BusEvent.beginTransmission st.m_dev_address_memory_access,
     BusEvent.endTransmission true,
     BusEvent.requestFrom st.m_dev_address_memory_access 1]
  if requestReturn ≠ 1 then (MEMORYRESULT.GENERIC_ERROR, none, events)
  else (MEMORYRESULT.OK, some (busByte % 256), events)

/-- `Mem24CSM01::addressMemoryPointer(uint32_t address)`. -/
def Mem24CSM01.addressMemoryPointer (st : Mem24CSM01) (address : Nat) :
    Nat × List BusEvent :=
  let pkt := st.configureAddressPacket address
  (pkt.deviceMemoryAddress,
   [BusEvent.beginTransmission pkt.deviceMemoryAddress,
    BusEvent.writeByte pkt.memoryMSB,
    BusEvent.writeByte pkt.memoryLSB])

/-- `Mem24CSM01::read(uint32_t address, uint8_t *buffer, size_t
bufferSize)` — random-address block read.  `avail` is the list of bytes
the transport actually delivers (the `while (Wire.available())` loop
copies exactly these, however many there are); the middle component is the
contents written into `buffer`. -/
def Mem24CSM01.readBuffer (st : Mem24CSM01) (address : Nat)
    (bufferSize : Nat) (avail : List Nat) :
    MEMORYRESULT × List Nat × List BusEvent :=
  if address > MAX_MEMORY_ADDRESS_VALUE then
    (MEMORYRESULT.ADDRESS_EXCEEDS_LIMIT, [], [])
  else if bufferSize > 256 then
    (MEMORYRESULT.BUFFER_TOO_LARGE, [], [])
  else
    let p := st.addressMemoryPointer address
    (MEMORYRESULT.OK,
     avail.map (fun b => b % 256),
     p.2 ++ [BusEvent.endTransmission true, BusEvent.requestFrom p.1 bufferSize])

end MIC24CSM01

namespace MIC24CSM01

/-! ## Helper lemmas -/

theorem and_one_shift_bne_zero (x k : Nat) :
    ((x &&& (1 <<< k)) != 0) = x.testBit k := by
  rw [Nat.shiftLeft_eq, one_mul, Nat.and_two_pow]
  cases h : x.testBit k <;> simp [h, (Nat.two_pow_pos k).ne']

theorem land_mask32_eq_mask8 (x k : Nat) (hx : x < 256) :
    x &&& ((2 ^ 32 - 1) ^^^ (1 <<< k)) = x &&& (255 ^^^ (1 <<< k)) := by
  apply Nat.eq_of_testBit_eq
  intro i
  simp only [Nat.testBit_and, Nat.testBit_xor]
  by_cases hi : i < 8
  · have h32 : (2 ^ 32 - 1 : Nat).testBit i = true := by
      rw [Nat.testBit_two_pow_sub_one]; simp; omega
    have h8 : (255 : Nat).testBit i = true := by
      have h255 : (255 : Nat) = 2 ^ 8 - 1 := by norm_num
      rw [h255, Nat.testBit_two_pow_sub_one]; simp; omega
    rw [h32, h8]
  · have h28 : x < 2 ^ 8 := by norm_num; omega
    have hxi : x.testBit i = false :=
      Nat.testBit_lt_two_pow
        (Nat.lt_of_lt_of_le h28 (Nat.pow_le_pow_right (by norm_num) (by omega)))
    simp [hxi]

end MIC24CSM01

namespace MIC24CSM01

/-! ## Claim theorems -/

/-- Claim C1 (evaluation of the code at the failing input): the page check
in `write` compares the absolute `address + arraySize - 1` with `0xFF`,
not the low-order address byte.  At `address = 0x100`, `arraySize = 1` the
written range lies entirely inside one 256-byte page
(`(0x100 % 256) + 1 ≤ 256`), yet `write` returns `NOT_ON_SINGLE_PAGE` and
performs no bus transaction. -/
theorem write_page_check_uses_absolute_address :
    ((Mem24CSM01.ofPins false false).write 0x100 (fun _ => 0) 1 0).1 =
      MEMORYRESULT.NOT_ON_SINGLE_PAGE
  ∧ ((Mem24CSM01.ofPins false false).write 0x100 (fun _ => 0) 1 0).2 = []
  ∧ (0x100 % 256) + 1 ≤ 256 := by
  refine ⟨?_, ?_, by norm_num⟩ <;> decide

/-- Claim C2 (evaluation of the code at the failing input): with
`(A1 = false, A2 = false)` the two-pin constructor yields memory-access
address `0b1010000` and configuration address `0b1011000` as claimed, but
with `(A1 = true, A2 = true)` it yields `0b1011100` for BOTH addresses —
not the claimed `0b1010110` and `0b1011110`: the code places A2 and A1 at
bits 3 and 2 of the 7-bit address, so A2 collides with the bit that
selects the configuration register. -/
theorem ofPins_address_values :
    (Mem24CSM01.ofPins false false).m_dev_address_memory_access = 0b1010000
  ∧ (Mem24CSM01.ofPins false false).m_dev_address_configuration_reg = 0b1011000
  ∧ (Mem24CSM01.ofPins true true).m_dev_address_memory_access = 0b1011100
  ∧ (Mem24CSM01.ofPins true true).m_dev_address_configuration_reg = 0b1011100
  ∧ (Mem24CSM01.ofPins true true).m_dev_address_memory_access ≠ 0b1010110
  ∧ (Mem24CSM01.ofPins true true).m_dev_address_configuration_reg ≠ 0b1011110 := by
  decide

/-- Claim C3: `updateConfigRegister(confirmLock)` transmits, after the two
configuration word-address bytes, exactly the high byte
`(isSoftwareWriteProtect << 1) | isConfigLocked` built from the in-memory
snapshot, then the snapshot's `zoneProtection` byte, then the
`confirmLock` byte; and it returns `false` iff the bus completion status
is non-zero. -/
theorem updateConfigRegister_spec (st : Mem24CSM01) (confirmLock : Nat)
    (endStatus : Int) :
    (st.updateConfigRegister confirmLock endStatus).2 =
      [BusEvent.beginTransmission st.m_dev_address_configuration_reg,
       BusEvent.writeByte CFGREG_WRD_ADDRH,
       BusEvent.writeByte CFGREG_WRD_ADDRL,
       BusEvent.writeByte
         ((boolBit st.m_configuration.isSoftwareWriteProtect <<< 1) |||
           boolBit st.m_configuration.isConfigLocked),
       BusEvent.writeByte st.m_configuration.zoneProtection,
       BusEvent.writeByte confirmLock,
       BusEvent.endTransmission true]
  ∧ ((st.updateConfigRegister confirmLock endStatus).1 = false ↔ endStatus ≠ 0) := by
  constructor
  · simp [Mem24CSM01.updateConfigRegister, Nat.zero_or]
  · by_cases h : endStatus = 0 <;> simp [Mem24CSM01.updateConfigRegister, h]

/-- Claim C5: the shared status mapping of read/write operations sends bus
completion code 0 to `OK`, 2 to `ADDRESS_ERROR`, 3 to `DATA_ERROR`, 5 to
`TIMEOUT`, and every other value to `GENERIC_ERROR` (so no other
`MEMORYRESULT` value is produced by the mapping). -/
theorem processTransmissionResult_spec (t : Int)
    (h0 : t ≠ 0) (h2 : t ≠ 2) (h3 : t ≠ 3) (h5 : t ≠ 5) :
    processTransmissionResult 0 = MEMORYRESULT.OK
  ∧ processTransmissionResult 2 = MEMORYRESULT.ADDRESS_ERROR
  ∧ processTransmissionResult 3 = MEMORYRESULT.DATA_ERROR
  ∧ processTransmissionResult 5 = MEMORYRESULT.TIMEOUT
  ∧ processTransmissionResult t = MEMORYRESULT.GENERIC_ERROR := by
  refine ⟨rfl, rfl, rfl, rfl, ?_⟩
  simp [processTransmissionResult, h0, h2, h3, h5]

/-- Witness for C5 at the concrete completion code 7. -/
theorem processTransmissionResult_spec_witness :
    ((7 : Int) ≠ 0 ∧ (7 : Int) ≠ 2 ∧ (7 : Int) ≠ 3 ∧ (7 : Int) ≠ 5)
  ∧ (processTransmissionResult 0 = MEMORYRESULT.OK
     ∧ processTransmissionResult 2 = MEMORYRESULT.ADDRESS_ERROR
     ∧ processTransmissionResult 3 = MEMORYRESULT.DATA_ERROR
     ∧ processTransmissionResult 5 = MEMORYRESULT.TIMEOUT
     ∧ processTransmissionResult 7 = MEMORYRESULT.GENERIC_ERROR) :=
  ⟨⟨by decide, by decide, by decide, by decide⟩,
   processTransmissionResult_spec 7 (by decide) (by decide) (by decide) (by decide)⟩

end MIC24CSM01

namespace MIC24CSM01

/-- Claim C4: for every pair of bytes `(high, low)` delivered by the bus,
`getConfiguration` returns `(high << 8) | low` and unconditionally
overwrites the snapshot with `zoneProtection = low`, `isConfigLocked` =
bit 8, `isSoftwareWriteProtect` = bit 9 and `isErrorCorrectionOccured` =
bit 15 of the result. -/
theorem getConfiguration_spec (st : Mem24CSM01) (high low : Nat)
    (hh : high < 256) (hl : low < 256) :
    st.getConfiguration high low =
      ((high <<< 8) ||| low,
       { st with m_configuration :=
          { zoneProtection := low
            isConfigLocked := ((high <<< 8) ||| low).testBit 8
            isSoftwareWriteProtect := ((high <<< 8) ||| low).testBit 9
            isErrorCorrectionOccured := ((high <<< 8) ||| low).testBit 15 } },
       [BusEvent.beginTransmission st.m_dev_address_configuration_reg,
        BusEvent.writeByte CFGREG_WRD_ADDRH,
        BusEvent.writeByte CFGREG_WRD_ADDRL,
        BusEvent.endTransmission false,
        BusEvent.requestFrom st.m_dev_address_configuration_reg 2]) := by
  have hhm : high % 256 = high := Nat.mod_eq_of_lt hh
  have hlm : low % 256 = low := Nat.mod_eq_of_lt hl
  have hres : ((high <<< 8) ||| low) % 65536 = (high <<< 8) ||| low := by
    apply Nat.mod_eq_of_lt
    have h1 : high <<< 8 < 2 ^ 16 := by
      rw [Nat.shiftLeft_eq]
      calc high * 2 ^ 8 < 256 * 2 ^ 8 := by omega
      _ = 2 ^ 16 := by norm_num
    have h2 : low < 2 ^ 16 := by omega
    have := Nat.or_lt_two_pow h1 h2
    omega
  simp only [Mem24CSM01.getConfiguration, hhm, hlm, hres, LOCK_MASK, EWPM_MASK,
    ECS_MASK, and_one_shift_bne_zero]

/-- Witness for C4 at `high = 0x83`, `low = 0x41`. -/
theorem getConfiguration_spec_witness :
    (0x83 < 256 ∧ 0x41 < 256)
  ∧ (Mem24CSM01.ofPins false false).getConfiguration 0x83 0x41 =
      ((0x83 <<< 8) ||| 0x41,
       { Mem24CSM01.ofPins false false with m_configuration :=
          { zoneProtection := 0x41
            isConfigLocked := ((0x83 <<< 8) ||| 0x41).testBit 8
            isSoftwareWriteProtect := ((0x83 <<< 8) ||| 0x41).testBit 9
            isErrorCorrectionOccured := ((0x83 <<< 8) ||| 0x41).testBit 15 } },
       [BusEvent.beginTransmission
          (Mem24CSM01.ofPins false false).m_dev_address_configuration_reg,
        BusEvent.writeByte CFGREG_WRD_ADDRH,
        BusEvent.writeByte CFGREG_WRD_ADDRL,
        BusEvent.endTransmission false,
        BusEvent.requestFrom
          (Mem24CSM01.ofPins false false).m_dev_address_configuration_reg 2]) :=
  ⟨⟨by decide, by decide⟩,
   getConfiguration_spec (Mem24CSM01.ofPins false false) 0x83 0x41
     (by decide) (by decide)⟩

/-- Claim C6: underrun detection is asymmetric between the two read paths.
The current-address read returns `GENERIC_ERROR` exactly when the
transport delivers a byte count different from 1 and `OK` otherwise,
while the random-address buffer read returns `OK` for every address up to
`0x1FFFF` and every `bufferSize` up to 256 regardless of how many bytes
the transport actually delivers. -/
theorem read_underrun_asymmetry (st : Mem24CSM01) (requestReturn busByte : Nat)
    (address bufferSize : Nat) (avail : List Nat)
    (ha : address ≤ 0x1FFFF) (hb : bufferSize ≤ 256) :
    (st.readCurrent requestReturn busByte).1 =
      (if requestReturn = 1 then MEMORYRESULT.OK else MEMORYRESULT.GENERIC_ERROR)
  ∧ (st.readBuffer address bufferSize avail).1 = MEMORYRESULT.OK := by
  constructor
  · by_cases h : requestReturn = 1 <;> simp [Mem24CSM01.readCurrent, h]
  · rw [Mem24CSM01.readBuffer,
      if_neg (by simp only [MAX_MEMORY_ADDRESS_VALUE]; omega),
      if_neg (by omega)]

/-- Witness for C6: an underrun on the current-address read
(`requestReturn = 0`) next to an underrun on the buffer read
(five bytes requested, none delivered). -/
theorem read_underrun_asymmetry_witness :
    ((0 : Nat) ≤ 0x1FFFF ∧ (5 : Nat) ≤ 256)
  ∧ ((Mem24CSM01.ofPins false false).readCurrent 0 0).1 =
      (if (0 : Nat) = 1 then MEMORYRESULT.OK else MEMORYRESULT.GENERIC_ERROR)
  ∧ ((Mem24CSM01.ofPins false false).readBuffer 0 5 []).1 = MEMORYRESULT.OK :=
  ⟨⟨by decide, by decide⟩,
   read_underrun_asymmetry (Mem24CSM01.ofPins false false) 0 0 0 5 []
     (by decide) (by decide)⟩

/-- Claim C7: `getSerialNumber(data, arraySize)` returns `false` and
performs no bus transaction whenever `arraySize ≠ 16`; whenever
`arraySize = 16` it issues the security-register write-then-read, copies
the 16 bytes in the order received, and returns `true` — independent of
how many bytes the bus actually delivered (the byte oracle `busBytes` is
arbitrary). -/
theorem getSerialNumber_spec (st : Mem24CSM01) (arraySize : Nat)
    (busBytes : Nat → Nat) :
    (arraySize ≠ 16 → st.getSerialNumber arraySize busBytes = (false, [], []))
  ∧ (arraySize = 16 →
      st.getSerialNumber arraySize busBytes =
        (true,
         (List.range 16).map (fun i => busBytes i % 256),
         [BusEvent.beginTransmission st.m_dev_address_security_register,
          BusEvent.writeByte SECREG_WRD_ADDRH,
          BusEvent.writeByte SECREG_WRD_ADDRL,
          BusEvent.endTransmission false,
          BusEvent.requestFrom st.m_dev_address_security_register 16])) := by
  constructor
  · intro h
    simp [Mem24CSM01.getSerialNumber, SERIAL_NUMBER_BYTE_SIZE, h]
  · intro h
    subst h
    simp [Mem24CSM01.getSerialNumber, SERIAL_NUMBER_BYTE_SIZE]

end MIC24CSM01

namespace MIC24CSM01

theorem if_bool_triple {α β : Type} (b : Bool) (s : α) (e : β) :
    (if b then ((true : Bool), s, e) else ((false : Bool), s, e)) = (b, s, e) := by
  cases b <;> rfl

/-- Claim C10: `write(address, dataArray, 0)` is not rejected as an
invalid size.  The page check computes `address + 0 - 1` in `uint32_t`
arithmetic: at `address = 0` it wraps to `0xFFFFFFFF` and the call returns
`NOT_ON_SINGLE_PAGE`, while for every `address` in `[1, 0x100]` all
validations pass and a bus transaction carrying only the two word-address
bytes and zero data bytes is issued. -/
theorem write_zero_size_spec (st : Mem24CSM01) (dataArray : Nat → Nat)
    (address : Nat) (endStatus : Int)
    (h1 : 1 ≤ address) (h2 : address ≤ 0x100) :
    (st.write 0 dataArray 0 endStatus).1 = MEMORYRESULT.NOT_ON_SINGLE_PAGE
  ∧ st.write address dataArray 0 endStatus =
      (processTransmissionResult endStatus,
       [BusEvent.beginTransmission
          (st.configureAddressPacket address).deviceMemoryAddress,
        BusEvent.writeByte (st.configureAddressPacket address).memoryMSB,
        BusEvent.writeByte (st.configureAddressPacket address).memoryLSB,
        BusEvent.endTransmission true]) := by
  have hp : (2 : Nat) ^ 32 = 4294967296 := by norm_num
  constructor
  · rw [Mem24CSM01.write,
      if_neg (by simp [MAX_MEMORY_ADDRESS_VALUE]),
      if_neg (by simp [MAX_MEMORY_PAGE_SIZE]),
      if_pos (by rw [hp]; norm_num)]
  · rw [Mem24CSM01.write,
      if_neg (by simp only [MAX_MEMORY_ADDRESS_VALUE]; omega),
      if_neg (by simp only [MAX_MEMORY_PAGE_SIZE]; omega),
      if_neg (by rw [hp]; omega)]
    simp

/-- Witness for C10 at `address = 0x42`. -/
theorem write_zero_size_spec_witness :
    ((1 : Nat) ≤ 0x42 ∧ (0x42 : Nat) ≤ 0x100)
  ∧ ((Mem24CSM01.ofPins false false).write 0 (fun _ => 0) 0 0).1 =
      MEMORYRESULT.NOT_ON_SINGLE_PAGE
  ∧ (Mem24CSM01.ofPins false false).write 0x42 (fun _ => 0) 0 0 =
      (processTransmissionResult 0,
       [BusEvent.beginTransmission
          ((Mem24CSM01.ofPins false false).configureAddressPacket
            0x42).deviceMemoryAddress,
        BusEvent.writeByte
          ((Mem24CSM01.ofPins false false).configureAddressPacket 0x42).memoryMSB,
        BusEvent.writeByte
          ((Mem24CSM01.ofPins false false).configureAddressPacket 0x42).memoryLSB,
        BusEvent.endTransmission true]) :=
  ⟨⟨by decide, by decide⟩,
   write_zero_size_spec (Mem24CSM01.ofPins false false) (fun _ => 0) 0x42 0
     (by decide) (by decide)⟩

end MIC24CSM01

namespace MIC24CSM01

/-- Claim C8: for every zone outside `[0,7]` (on the `uint8_t` domain),
`setWriteProtectionZone` and `removeWriteProtectionZone` return `false`
without issuing any bus transaction and without modifying the snapshot;
for every zone in `[0,7]`, `setWriteProtectionZone` sets exactly bit
`zone` of the snapshot's `zoneProtection` byte and
`removeWriteProtectionZone` clears exactly that bit, each then delegating
to `updateConfigRegister` with the unlocked confirm byte (its returned
flag and its bus trace). -/
theorem protectionZone_ops_spec (st : Mem24CSM01) (zone : Nat)
    (endStatus : Int) (hzp : st.m_configuration.zoneProtection < 256) :
    (7 < zone →
        st.setWriteProtectionZone zone endStatus = (false, st, [])
      ∧ st.removeWriteProtectionZone zone endStatus = (false, st, []))
  ∧ (zone ≤ 7 →
        (st.setWriteProtectionZone zone endStatus).2.1 =
          { st with m_configuration :=
              { st.m_configuration with zoneProtection :=
                  st.m_configuration.zoneProtection ||| (1 <<< zone) } }
      ∧ (st.setWriteProtectionZone zone endStatus).1 =
          ((st.setWriteProtectionZone zone endStatus).2.1.updateConfigRegister
            REGISTER_UNLOCKED endStatus).1
      ∧ (st.setWriteProtectionZone zone endStatus).2.2 =
          ((st.setWriteProtectionZone zone endStatus).2.1.updateConfigRegister
            REGISTER_UNLOCKED endStatus).2
      ∧ (st.removeWriteProtectionZone zone endStatus).2.1 =
          { st with m_configuration :=
              { st.m_configuration with zoneProtection :=
                  st.m_configuration.zoneProtection &&& (255 ^^^ (1 <<< zone)) } }
      ∧ (st.removeWriteProtectionZone zone endStatus).1 =
          ((st.removeWriteProtectionZone zone endStatus).2.1.updateConfigRegister
            REGISTER_UNLOCKED endStatus).1
      ∧ (st.removeWriteProtectionZone zone endStatus).2.2 =
          ((st.removeWriteProtectionZone zone endStatus).2.1.updateConfigRegister
            REGISTER_UNLOCKED endStatus).2) := by
  constructor
  · intro h
    have hn : ¬ zone ≤ 7 := by omega
    constructor
    · rw [Mem24CSM01.setWriteProtectionZone, if_neg hn]
    · rw [Mem24CSM01.removeWriteProtectionZone, if_neg hn]
  · intro h
    have hor : (st.m_configuration.zoneProtection ||| (1 <<< zone)) % 256 =
        st.m_configuration.zoneProtection ||| (1 <<< zone) := by
      apply Nat.mod_eq_of_lt
      have h8a : st.m_configuration.zoneProtection < 2 ^ 8 := by omega
      have h8b : (1 <<< zone) < 2 ^ 8 := by
        rw [Nat.shiftLeft_eq, one_mul]
        have : (2 : Nat) ^ zone ≤ 2 ^ 7 := Nat.pow_le_pow_right (by norm_num) h
        omega
      have := Nat.or_lt_two_pow h8a h8b
      omega
    have hand : (st.m_configuration.zoneProtection &&&
          ((4294967295 : Nat) ^^^ (1 <<< zone))) % 256 =
        st.m_configuration.zoneProtection &&& (255 ^^^ (1 <<< zone)) := by
      have h4 : (4294967295 : Nat) = 2 ^ 32 - 1 := by norm_num
      rw [h4, land_mask32_eq_mask8 _ _ hzp]
      exact Nat.mod_eq_of_lt (Nat.lt_of_le_of_lt Nat.and_le_left hzp)
    refine ⟨?_, ?_, ?_, ?_, ?_, ?_⟩ <;>
      simp [Mem24CSM01.setWriteProtectionZone,
        Mem24CSM01.removeWriteProtectionZone, h, hor, hand, if_bool_triple]

end MIC24CSM01

namespace MIC24CSM01

/-- Witness for C8 at zone 3 on a freshly constructed driver. -/
theorem protectionZone_ops_spec_witness :
    (Mem24CSM01.ofPins false false).m_configuration.zoneProtection < 256
  ∧ ((7 < 3 →
        (Mem24CSM01.ofPins false false).setWriteProtectionZone 3 0 =
          (false, Mem24CSM01.ofPins false false, [])
      ∧ (Mem24CSM01.ofPins false false).removeWriteProtectionZone 3 0 =
          (false, Mem24CSM01.ofPins false false, []))
  ∧ (3 ≤ 7 →
        ((Mem24CSM01.ofPins false false).setWriteProtectionZone 3 0).2.1 =
          { Mem24CSM01.ofPins false false with m_configuration :=
              { (Mem24CSM01.ofPins false false).m_configuration with
                  zoneProtection :=
                    (Mem24CSM01.ofPins false false).m_configuration.zoneProtection |||
                      (1 <<< 3) } }
      ∧ ((Mem24CSM01.ofPins false false).setWriteProtectionZone 3 0).1 =
          (((Mem24CSM01.ofPins false false).setWriteProtectionZone
              3 0).2.1.updateConfigRegister REGISTER_UNLOCKED 0).1
      ∧ ((Mem24CSM01.ofPins false false).setWriteProtectionZone 3 0).2.2 =
          (((Mem24CSM01.ofPins false false).setWriteProtectionZone
              3 0).2.1.updateConfigRegister REGISTER_UNLOCKED 0).2
      ∧ ((Mem24CSM01.ofPins false false).removeWriteProtectionZone 3 0).2.1 =
          { Mem24CSM01.ofPins false false with m_configuration :=
              { (Mem24CSM01.ofPins false false).m_configuration with
                  zoneProtection :=
                    (Mem24CSM01.ofPins false false).m_configuration.zoneProtection &&&
                      (255 ^^^ (1 <<< 3)) } }
      ∧ ((Mem24CSM01.ofPins false false).removeWriteProtectionZone 3 0).1 =
          (((Mem24CSM01.ofPins false false).removeWriteProtectionZone
              3 0).2.1.updateConfigRegister REGISTER_UNLOCKED 0).1
      ∧ ((Mem24CSM01.ofPins false false).removeWriteProtectionZone 3 0).2.2 =
          (((Mem24CSM01.ofPins false false).removeWriteProtectionZone
              3 0).2.1.updateConfigRegister REGISTER_UNLOCKED 0).2)) :=
  ⟨by decide,
   protectionZone_ops_spec (Mem24CSM01.ofPins false false) 3 0 (by decide)⟩

end MIC24CSM01

namespace MIC24CSM01

/-- Claim C9: the configuration-mutating operations are not atomic on bus
failure.  When the bus transaction inside `updateConfigRegister` reports a
non-zero status, each operation returns `false` yet the snapshot keeps the
in-memory mutation made before the bus write: `setWriteProtectionZone`
keeps the newly set bit, `removeWriteProtectionZone` the cleared bit,
`writeProtection` the overwritten mask, and the software-write-protect
switches keep the new flag value. -/
theorem config_ops_not_atomic (st : Mem24CSM01) (zone zones : Nat)
    (endStatus : Int) (hz : zone ≤ 7) (hzs : zones < 256)
    (hs : endStatus ≠ 0) :
    ((st.setWriteProtectionZone zone endStatus).1 = false
   ∧ ((st.setWriteProtectionZone zone
        endStatus).2.1.m_configuration.zoneProtection.testBit zone = true))
  ∧ ((st.removeWriteProtectionZone zone endStatus).1 = false
   ∧ ((st.removeWriteProtectionZone zone
        endStatus).2.1.m_configuration.zoneProtection.testBit zone = false))
  ∧ ((st.writeProtection zones endStatus).1 = false
   ∧ (st.writeProtection zones endStatus).2.1.m_configuration.zoneProtection
       = zones)
  ∧ ((st.enableSoftwareWriteProtect endStatus).1 = false
   ∧ (st.enableSoftwareWriteProtect
        endStatus).2.1.m_configuration.isSoftwareWriteProtect = true)
  ∧ ((st.disableSoftwareWriteProtect endStatus).1 = false
   ∧ (st.disableSoftwareWriteProtect
        endStatus).2.1.m_configuration.isSoftwareWriteProtect = false) := by
  have h256 : (256 : Nat) = 2 ^ 8 := by norm_num
  have h32 : zone < 32 := by omega
  have h8 : zone < 8 := by omega
  refine ⟨⟨?_, ?_⟩, ⟨?_, ?_⟩, ⟨?_, ?_⟩, ⟨?_, ?_⟩, ⟨?_, ?_⟩⟩
  · simp [Mem24CSM01.setWriteProtectionZone, hz,
      Mem24CSM01.updateConfigRegister, hs]
  · rw [Mem24CSM01.setWriteProtectionZone, if_pos hz]
    simp only [Mem24CSM01.updateConfigRegister, if_bool_triple]
    rw [h256, Nat.testBit_mod_two_pow]
    simp [Nat.testBit_or, Nat.shiftLeft_eq, Nat.testBit_two_pow_self, h8]
  · simp [Mem24CSM01.removeWriteProtectionZone, hz,
      Mem24CSM01.updateConfigRegister, hs]
  · have hmask : Nat.testBit 4294967295 zone = true := by
      have h4 : (4294967295 : Nat) = 2 ^ 32 - 1 := by norm_num
      rw [h4, Nat.testBit_two_pow_sub_one]
      simp [h32]
    rw [Mem24CSM01.removeWriteProtectionZone, if_pos hz]
    simp only [Mem24CSM01.updateConfigRegister, if_bool_triple]
    rw [h256, Nat.testBit_mod_two_pow]
    simp [Nat.testBit_and, Nat.testBit_xor, Nat.shiftLeft_eq,
      Nat.testBit_two_pow_self, hmask, h32]
  · simp [Mem24CSM01.writeProtection, Mem24CSM01.updateConfigRegister, hs]
  · simp [Mem24CSM01.writeProtection, Nat.mod_eq_of_lt hzs]
  · simp [Mem24CSM01.enableSoftwareWriteProtect,
      Mem24CSM01.updateConfigRegister, hs]
  · simp [Mem24CSM01.enableSoftwareWriteProtect]
  · simp [Mem24CSM01.disableSoftwareWriteProtect,
      Mem24CSM01.updateConfigRegister, hs]
  · simp [Mem24CSM01.disableSoftwareWriteProtect]

end MIC24CSM01

namespace MIC24CSM01

/-- Witness for C9 at zone 2, mask `0x15`, completion status 1. -/
theorem config_ops_not_atomic_witness :
    ((2 : Nat) ≤ 7 ∧ (0x15 : Nat) < 256 ∧ (1 : Int) ≠ 0)
  ∧ ((((Mem24CSM01.ofPins false false).setWriteProtectionZone 2 1).1 = false
   ∧ (((Mem24CSM01.ofPins false false).setWriteProtectionZone
        2 1).2.1.m_configuration.zoneProtection.testBit 2 = true))
  ∧ (((Mem24CSM01.ofPins false false).removeWriteProtectionZone 2 1).1 = false
   ∧ (((Mem24CSM01.ofPins false false).removeWriteProtectionZone
        2 1).2.1.m_configuration.zoneProtection.testBit 2 = false))
  ∧ (((Mem24CSM01.ofPins false false).writeProtection 0x15 1).1 = false
   ∧ ((Mem24CSM01.ofPins false false).writeProtection
        0x15 1).2.1.m_configuration.zoneProtection = 0x15)
  ∧ (((Mem24CSM01.ofPins false false).enableSoftwareWriteProtect 1).1 = false
   ∧ ((Mem24CSM01.ofPins false false).enableSoftwareWriteProtect
        1).2.1.m_configuration.isSoftwareWriteProtect = true)
  ∧ (((Mem24CSM01.ofPins false false).disableSoftwareWriteProtect 1).1 = false
   ∧ ((Mem24CSM01.ofPins false false).disableSoftwareWriteProtect
        1).2.1.m_configuration.isSoftwareWriteProtect = false)) :=
  ⟨⟨by decide, by decide, by decide⟩,
   config_ops_not_atomic (Mem24CSM01.ofPins false false) 2 0x15 1
     (by decide) (by decide) (by decide)⟩

end MIC24CSM01
